import Mathlib

/-!
Verification development for the VaultGuard passcode-gated vault front-end.

The definitions below are a shallow embedding of the access-controller state
machine of the application component (the main app component and its types
module) and of the analysis service (`services/geminiService.ts`).

Modelling conventions:
* React `useState` fields become fields of a `VaultState` record; an operation
  of the controller is a Lean function from the pre-state (plus the inputs the
  browser environment supplies, such as the current time, the camera
  environment, or the remote service outcome) to the post-state.
* The `setTimeout`-driven phases of `handlePinSubmit` run to completion; the
  result records the final settled state, the ordered list of
  `setSecurityStatus` values the cycle produces, and the ordered list of
  externally visible effects (store writes, alert sends, the capture call,
  the browser `alert` popup).
* `localStorage` reads at startup are modelled by their parse results:
  `none` = key absent, `some (Except.error e)` = stored string present but
  `JSON.parse` threw, `some (Except.ok v)` = parsed value (unvalidated, as in
  the source).
-/

namespace VaultGuard

/-- `AppState` enum from the types module: SETUP | LOCKED | UNLOCKED. -/
inductive AppState where
  | SETUP
  | LOCKED
  | UNLOCKED
deriving DecidableEq, Repr

/-- `SecurityStatus` enum from the types module:
IDLE | CHECKING | BREACH_DETECTED | GRANTED. -/
inductive SecurityStatus where
  | IDLE
  | CHECKING
  | BREACH_DETECTED
  | GRANTED
deriving DecidableEq, Repr

/-- `AppSettings` interface: alertEmail, triggerThreshold, enableCapture.
`triggerThreshold` is a TS `number`; integer-valued thresholds are modelled
as `Int` (stored JSON is not validated, so any integer can appear). -/
structure AppSettings where
  alertEmail : String
  triggerThreshold : Int
  enableCapture : Bool
deriving DecidableEq, Repr

/-- `IntruderLog` interface: id, timestamp (epoch millis), imageData (base64),
attemptNumber, optional aiAnalysis. -/
structure IntruderLog where
  id : String
  timestamp : Nat
  imageData : String
  attemptNumber : Nat
  aiAnalysis : Option String
deriving DecidableEq, Repr

/-- The React state of the `App` component that the security core reads and
writes: appState, inputPin, storedPin, logs, settings, securityStatus,
sessionFailedAttempts. -/
structure VaultState where
  appState : AppState
  inputPin : String
  storedPin : Option String
  logs : List IntruderLog
  settings : AppSettings
  securityStatus : SecurityStatus
  sessionFailedAttempts : Nat
deriving DecidableEq, Repr

/-- `DEFAULT_SETTINGS` constant from the app component. -/
def DEFAULT_SETTINGS : AppSettings :=
  { alertEmail := ""
    triggerThreshold := 1
    enableCapture := true }

/-- The browser-side camera environment `captureIntruder` consults: the
`videoRef` and `canvasRef` DOM refs, the `cameraActive` flag, and the result
of `canvas.getContext` followed by `drawImage`/`toDataURL` (the captured frame
as a data URL) when a 2d context is available. -/
structure CameraEnv where
  hasVideoRef : Bool
  hasCanvasRef : Bool
  cameraActive : Bool
  context2d : Option String
deriving DecidableEq, Repr

/-- `captureIntruder`: returns `null` when either ref is absent or the camera
is not active; otherwise draws the current frame and returns its data URL if
a 2d context exists, else `null`. -/
def captureIntruder (cam : CameraEnv) : Option String :=
  if !cam.hasVideoRef || !cam.hasCanvasRef || !cam.cameraActive then
    none
  else
    match cam.context2d with
    | some frame => some frame
    | none => none

/-- Externally visible effects emitted during a `handlePinSubmit` cycle, in
program order: `localStorage.setItem` of the pin, `localStorage.setItem` of
the serialized log list, the invocation of `captureIntruder`, the simulated
alert email, and the browser `alert` popup. -/
inductive Effect where
  | persistPin (pin : String)
  | persistLogs (logs : List IntruderLog)
  | captureCall
  | sendAlert (email : String) (attemptCount : Nat)
  | uiAlert (message : String)
deriving DecidableEq, Repr

/-- `sendSecurityAlert`: no-op when `settings.alertEmail` is empty (falsy),
otherwise emits the simulated email send. -/
def sendSecurityAlert (settings : AppSettings) (imageData : String)
    (attemptCount : Nat) : List Effect :=
  if settings.alertEmail = "" then
    []
  else
    [Effect.sendAlert settings.alertEmail attemptCount]

/-- Result of one full `handlePinSubmit` cycle (all of its `setTimeout`
continuations included): the settled state, the ordered `setSecurityStatus`
values, and the ordered external effects. -/
structure SubmitResult where
  final : VaultState
  statusTrace : List SecurityStatus
  effects : List Effect
deriving DecidableEq, Repr

/-- `handlePinSubmit`: sets status CHECKING, waits the 600ms verification
delay, then branches on the mode.
* SETUP with a 4-character pin: persist the pin, store it, go LOCKED, clear
  input, status IDLE, show the confirmation popup; otherwise just status IDLE.
* LOCKED with `inputPin === storedPin`: status GRANTED, reset the failed
  counter, and after 500ms go UNLOCKED with input cleared and status IDLE.
* LOCKED mismatch: status BREACH_DETECTED, increment the failed counter; if
  `enableCapture && currentAttempts >= triggerThreshold` call
  `captureIntruder`; on an image, prepend a fresh log (id and timestamp from
  `Date.now()`), persist the whole list, then fire the alert; after 1000ms
  clear input and return status to IDLE.
* UNLOCKED: neither branch applies, so the cycle ends still CHECKING. -/
def handlePinSubmit (s : VaultState) (now : Nat) (cam : CameraEnv) :
    SubmitResult :=
  match s.appState with
  | AppState.SETUP =>
    if s.inputPin.length = 4 then
      { final := { s with
          storedPin := some s.inputPin
          appState := AppState.LOCKED
          inputPin := ""
          securityStatus := SecurityStatus.IDLE }
        statusTrace := [SecurityStatus.CHECKING, SecurityStatus.IDLE]
        effects := [Effect.persistPin s.inputPin,
          Effect.uiAlert "Passcode set successfully! System is now armed."] }
    else
      { final := { s with securityStatus := SecurityStatus.IDLE }
        statusTrace := [SecurityStatus.CHECKING, SecurityStatus.IDLE]
        effects := [] }
  | AppState.LOCKED =>
    if s.storedPin = some s.inputPin then
      { final := { s with
          sessionFailedAttempts := 0
          appState := AppState.UNLOCKED
          inputPin := ""
          securityStatus := SecurityStatus.IDLE }
        statusTrace := [SecurityStatus.CHECKING, SecurityStatus.GRANTED,
          SecurityStatus.IDLE]
        effects := [] }
    else
      let currentAttempts := s.sessionFailedAttempts + 1
      if s.settings.enableCapture
          && decide ((currentAttempts : Int) ≥ s.settings.triggerThreshold) then
        match captureIntruder cam with
        | some imageData =>
          let newLog : IntruderLog :=
            { id := toString now
              timestamp := now
              imageData := imageData
              attemptNumber := currentAttempts
              aiAnalysis := none }
          let updatedLogs := newLog :: s.logs
          { final := { s with
              sessionFailedAttempts := currentAttempts
              logs := updatedLogs
              inputPin := ""
              securityStatus := SecurityStatus.IDLE }
            statusTrace := [SecurityStatus.CHECKING,
              SecurityStatus.BREACH_DETECTED, SecurityStatus.IDLE]
            effects := [Effect.captureCall, Effect.persistLogs updatedLogs]
              ++ sendSecurityAlert s.settings imageData currentAttempts }
        | none =>
          { final := { s with
              sessionFailedAttempts := currentAttempts
              inputPin := ""
              securityStatus := SecurityStatus.IDLE }
            statusTrace := [SecurityStatus.CHECKING,
              SecurityStatus.BREACH_DETECTED, SecurityStatus.IDLE]
            effects := [Effect.captureCall] }
      else
        { final := { s with
            sessionFailedAttempts := currentAttempts
            inputPin := ""
            securityStatus := SecurityStatus.IDLE }
          statusTrace := [SecurityStatus.CHECKING,
            SecurityStatus.BREACH_DETECTED, SecurityStatus.IDLE]
          effects := [] }
  | AppState.UNLOCKED =>
    { final := { s with securityStatus := SecurityStatus.CHECKING }
      statusTrace := [SecurityStatus.CHECKING]
      effects := [] }

/-- `handleKeyPress`: appends the pressed digit while fewer than 4 characters
are entered. -/
def handleKeyPress (s : VaultState) (key : Char) : VaultState :=
  if s.inputPin.length < 4 then
    { s with inputPin := s.inputPin.push key }
  else
    s

/-- `handleDelete`: drops the last entered character (`slice(0, -1)`). -/
def handleDelete (s : VaultState) : VaultState :=
  { s with inputPin := s.inputPin.dropRight 1 }

/-- `handleAnalyze` completion: attaches the analysis text to the log with the
matching id and persists the updated list. -/
def handleAnalyze (s : VaultState) (logId : String) (analysis : String) :
    VaultState :=
  { s with logs := s.logs.map fun l =>
      if l.id = logId then { l with aiAnalysis := some analysis } else l }

/-- Settings-modal threshold slider `onChange`: replaces `triggerThreshold`
with the parsed slider value (the range input is constrained to 1..5). -/
def setTriggerThreshold (settings : AppSettings) (v : Int) : AppSettings :=
  { settings with triggerThreshold := v }

/-- Settings-modal email input `onChange`: replaces `alertEmail`. -/
def setAlertEmail (settings : AppSettings) (e : String) : AppSettings :=
  { settings with alertEmail := e }

/-- Settings-modal capture toggle `onClick`: flips `enableCapture`. -/
def toggleEnableCapture (settings : AppSettings) : AppSettings :=
  { settings with enableCapture := !settings.enableCapture }

/-- The initialization effect of the app component, applied to the initial
React state. Each `localStorage` read is modelled by its parse outcome:
`none` = key absent, `some (Except.error e)` = `JSON.parse` threw (caught:
the default is kept), `some (Except.ok v)` = parsed value, taken as-is.
A saved pin yields LOCKED with the pin stored; otherwise SETUP. -/
def initApp (savedPin : Option String)
    (savedLogs : Option (Except String (List IntruderLog)))
    (savedSettings : Option (Except String AppSettings)) : VaultState :=
  { appState := match savedPin with
      | some _ => AppState.LOCKED
      | none => AppState.SETUP
    inputPin := ""
    storedPin := savedPin
    logs := match savedLogs with
      | some (Except.ok l) => l
      | _ => []
    settings := match savedSettings with
      | some (Except.ok st) => st
      | _ => DEFAULT_SETTINGS
    securityStatus := SecurityStatus.IDLE
    sessionFailedAttempts := 0 }

/-- `analyzeIntruderImage` from `services/geminiService.ts`. `outcome` is the
result of the awaited `ai.models.generateContent` call: `Except.error` when
the call throws, `Except.ok t` with `t` the `response.text` field (`none` =
undefined). The surrounding try/catch maps a throw to the fixed fallback
string, and `response.text || ...` maps an undefined or empty text to the
no-text message; otherwise the text is returned. (The data-URL prefix
stripping only rewrites the request payload and does not affect the returned
string.) -/
def analyzeIntruderImage (base64Image : String)
    (outcome : Except String (Option String)) : String :=
  match outcome with
  | Except.ok (some t) =>
    if t = "" then "Analysis failed: No text returned." else t
  | Except.ok none => "Analysis failed: No text returned."
  | Except.error _ => "Security analysis currently unavailable."

/-- One user-interface event step of the app. Guards record where the source
renders the corresponding control: the keypad exists in the SETUP and LOCKED
views, auto-submit fires exactly when 4 digits are entered, and the re-lock
button, the settings modal and the analyze button exist only in the UNLOCKED
view; the threshold slider is a range input constrained to 1..5. -/
inductive Step : VaultState → VaultState → Prop where
  | keyPress (s : VaultState) (key : Char)
      (h : s.appState ≠ AppState.UNLOCKED) :
      Step s (handleKeyPress s key)
  | deleteKey (s : VaultState)
      (h : s.appState ≠ AppState.UNLOCKED) :
      Step s (handleDelete s)
  | pinSubmit (s : VaultState) (now : Nat) (cam : CameraEnv)
      (h : s.inputPin.length = 4) :
      Step s (handlePinSubmit s now cam).final
  | reLock (s : VaultState)
      (h : s.appState = AppState.UNLOCKED) :
      Step s { s with appState := AppState.LOCKED }
  | thresholdChange (s : VaultState) (v : Int)
      (h : s.appState = AppState.UNLOCKED) (h1 : 1 ≤ v) (h5 : v ≤ 5) :
      Step s { s with settings := setTriggerThreshold s.settings v }
  | emailChange (s : VaultState) (e : String)
      (h : s.appState = AppState.UNLOCKED) :
      Step s { s with settings := setAlertEmail s.settings e }
  | captureToggle (s : VaultState)
      (h : s.appState = AppState.UNLOCKED) :
      Step s { s with settings := toggleEnableCapture s.settings }
  | analyzeDone (s : VaultState) (logId : String) (analysis : String)
      (h : s.appState = AppState.UNLOCKED) :
      Step s (handleAnalyze s logId analysis)

/-- A state is reachable when it arises from the initialization effect
followed by finitely many event steps. -/
def Reachable (s : VaultState) : Prop :=
  ∃ savedPin savedLogs savedSettings,
    Relation.ReflTransGen Step (initApp savedPin savedLogs savedSettings) s

/-- In LOCKED or UNLOCKED mode a stored passcode exists. -/
def pinInvariant (s : VaultState) : Prop :=
  (s.appState = AppState.LOCKED ∨ s.appState = AppState.UNLOCKED) →
    s.storedPin ≠ none

/-- Example settings used to instantiate the theorems below. -/
def exampleSettings : AppSettings :=
  { alertEmail := "admin@example.com"
    triggerThreshold := 1
    enableCapture := true }

/-- Example LOCKED state with a wrong pin fully entered. -/
def lockedWrongState : VaultState :=
  { appState := AppState.LOCKED
    inputPin := "0000"
    storedPin := some "1234"
    logs := []
    settings := exampleSettings
    securityStatus := SecurityStatus.IDLE
    sessionFailedAttempts := 0 }

/-- Example LOCKED state with the correct pin fully entered. -/
def lockedRightState : VaultState :=
  { lockedWrongState with inputPin := "1234" }

/-- Example SETUP state with a 4-digit pin fully entered. -/
def setupState : VaultState :=
  { appState := AppState.SETUP
    inputPin := "5678"
    storedPin := none
    logs := []
    settings := DEFAULT_SETTINGS
    securityStatus := SecurityStatus.IDLE
    sessionFailedAttempts := 0 }

/-- Example camera environment that yields a frame. -/
def camReady : CameraEnv :=
  { hasVideoRef := true
    hasCanvasRef := true
    cameraActive := true
    context2d := some "frameA" }

/-- Example camera environment with the camera inactive (permission denied
or no active stream): `captureIntruder` yields nothing. -/
def camDown : CameraEnv :=
  { hasVideoRef := true
    hasCanvasRef := true
    cameraActive := false
    context2d := some "frameA" }

section Theorems

/-- Branch lemma: LOCKED, wrong pin, capture condition holds, camera yields a
frame. -/
theorem handlePinSubmit_locked_wrong_some (s : VaultState) (now : Nat)
    (cam : CameraEnv) (img : String)
    (hL : s.appState = AppState.LOCKED)
    (hw : ¬ s.storedPin = some s.inputPin)
    (hen : s.settings.enableCapture = true)
    (hthr : ((s.sessionFailedAttempts + 1 : Nat) : Int) ≥
      s.settings.triggerThreshold)
    (hsome : captureIntruder cam = some img) :
    handlePinSubmit s now cam =
      { final := { s with
          sessionFailedAttempts := s.sessionFailedAttempts + 1
          logs := IntruderLog.mk (toString now) now img
            (s.sessionFailedAttempts + 1) none :: s.logs
          inputPin := ""
          securityStatus := SecurityStatus.IDLE }
        statusTrace := [SecurityStatus.CHECKING,
          SecurityStatus.BREACH_DETECTED, SecurityStatus.IDLE]
        effects := [Effect.captureCall,
          Effect.persistLogs (IntruderLog.mk (toString now) now img
            (s.sessionFailedAttempts + 1) none :: s.logs)]
          ++ sendSecurityAlert s.settings img (s.sessionFailedAttempts + 1) }
    := by
  have hcond : (s.settings.enableCapture &&
      decide (((s.sessionFailedAttempts + 1 : Nat) : Int) ≥
        s.settings.triggerThreshold)) = true := by
    simp only [hen, Bool.true_and, decide_eq_true_eq]
    exact hthr
  unfold handlePinSubmit
  rw [hL]
  simp only [if_neg hw, hcond, if_true, hsome]

/-- Branch lemma: LOCKED, wrong pin, capture condition holds, camera yields
nothing. -/
theorem handlePinSubmit_locked_wrong_none (s : VaultState) (now : Nat)
    (cam : CameraEnv)
    (hL : s.appState = AppState.LOCKED)
    (hw : ¬ s.storedPin = some s.inputPin)
    (hen : s.settings.enableCapture = true)
    (hthr : ((s.sessionFailedAttempts + 1 : Nat) : Int) ≥
      s.settings.triggerThreshold)
    (hnone : captureIntruder cam = none) :
    handlePinSubmit s now cam =
      { final := { s with
          sessionFailedAttempts := s.sessionFailedAttempts + 1
          inputPin := ""
          securityStatus := SecurityStatus.IDLE }
        statusTrace := [SecurityStatus.CHECKING,
          SecurityStatus.BREACH_DETECTED, SecurityStatus.IDLE]
        effects := [Effect.captureCall] } := by
  have hcond : (s.settings.enableCapture &&
      decide (((s.sessionFailedAttempts + 1 : Nat) : Int) ≥
        s.settings.triggerThreshold)) = true := by
    simp only [hen, Bool.true_and, decide_eq_true_eq]
    exact hthr
  unfold handlePinSubmit
  rw [hL]
  simp only [if_neg hw, hcond, if_true, hnone]

/-- Branch lemma: LOCKED, wrong pin, capture condition fails. -/
theorem handlePinSubmit_locked_wrong_nofire (s : VaultState) (now : Nat)
    (cam : CameraEnv)
    (hL : s.appState = AppState.LOCKED)
    (hw : ¬ s.storedPin = some s.inputPin)
    (hoff : ¬ (s.settings.enableCapture = true ∧
      ((s.sessionFailedAttempts + 1 : Nat) : Int) ≥
        s.settings.triggerThreshold)) :
    handlePinSubmit s now cam =
      { final := { s with
          sessionFailedAttempts := s.sessionFailedAttempts + 1
          inputPin := ""
          securityStatus := SecurityStatus.IDLE }
        statusTrace := [SecurityStatus.CHECKING,
          SecurityStatus.BREACH_DETECTED, SecurityStatus.IDLE]
        effects := [] } := by
  have hcond : (s.settings.enableCapture &&
      decide (((s.sessionFailedAttempts + 1 : Nat) : Int) ≥
        s.settings.triggerThreshold)) = false := by
    by_cases hen : s.settings.enableCapture = true
    · simp only [hen, Bool.true_and, decide_eq_false_iff_not]
      intro hc
      exact hoff ⟨hen, hc⟩
    · simp only [Bool.not_eq_true] at hen
      simp [hen]
  unfold handlePinSubmit
  rw [hL]
  simp only [if_neg hw, hcond, if_false, Bool.false_eq_true]

/-- Branch lemma: LOCKED with the correct pin entered. -/
theorem handlePinSubmit_locked_correct (s : VaultState) (now : Nat)
    (cam : CameraEnv)
    (hL : s.appState = AppState.LOCKED)
    (hc : s.storedPin = some s.inputPin) :
    handlePinSubmit s now cam =
      { final := { s with
          sessionFailedAttempts := 0
          appState := AppState.UNLOCKED
          inputPin := ""
          securityStatus := SecurityStatus.IDLE }
        statusTrace := [SecurityStatus.CHECKING, SecurityStatus.GRANTED,
          SecurityStatus.IDLE]
        effects := [] } := by
  unfold handlePinSubmit
  rw [hL]
  simp only [if_pos hc]

/-- Branch lemma: SETUP with a 4-character pin entered. -/
theorem handlePinSubmit_setup_four (s : VaultState) (now : Nat)
    (cam : CameraEnv)
    (hS : s.appState = AppState.SETUP)
    (h4 : s.inputPin.length = 4) :
    handlePinSubmit s now cam =
      { final := { s with
          storedPin := some s.inputPin
          appState := AppState.LOCKED
          inputPin := ""
          securityStatus := SecurityStatus.IDLE }
        statusTrace := [SecurityStatus.CHECKING, SecurityStatus.IDLE]
        effects := [Effect.persistPin s.inputPin,
          Effect.uiAlert "Passcode set successfully! System is now armed."] }
    := by
  unfold handlePinSubmit
  rw [hS]
  simp only [if_pos h4]

/-- C1: in Locked mode, on a failed attempt, capture is invoked if and only
if `enableCapture` is true and the incremented SessionFailedAttempts counter
reaches `triggerThreshold`; the condition is re-evaluated on every failed
attempt (the statement holds for an arbitrary pre-state counter), and each
qualifying attempt that yields an image prepends its own IntruderLog whose
attemptNumber equals the updated SessionFailedAttempts value. -/
theorem locked_capture_fires_iff (s : VaultState) (now : Nat)
    (cam : CameraEnv)
    (hL : s.appState = AppState.LOCKED)
    (hw : ¬ s.storedPin = some s.inputPin) :
    (Effect.captureCall ∈ (handlePinSubmit s now cam).effects ↔
      (s.settings.enableCapture = true ∧
        ((s.sessionFailedAttempts + 1 : Nat) : Int) ≥
          s.settings.triggerThreshold)) ∧
    (handlePinSubmit s now cam).final.sessionFailedAttempts =
      s.sessionFailedAttempts + 1 ∧
    (∀ img, captureIntruder cam = some img →
      s.settings.enableCapture = true →
      ((s.sessionFailedAttempts + 1 : Nat) : Int) ≥
        s.settings.triggerThreshold →
      (handlePinSubmit s now cam).final.logs =
        IntruderLog.mk (toString now) now img
          ((handlePinSubmit s now cam).final.sessionFailedAttempts) none
          :: s.logs) := by
  by_cases hfire : s.settings.enableCapture = true ∧
      ((s.sessionFailedAttempts + 1 : Nat) : Int) ≥ s.settings.triggerThreshold
  · obtain ⟨hen, hthr⟩ := hfire
    cases hcam : captureIntruder cam with
    | some img =>
      rw [handlePinSubmit_locked_wrong_some s now cam img hL hw hen hthr hcam]
      refine ⟨⟨fun _ => ⟨hen, hthr⟩, fun _ => by simp⟩, rfl, ?_⟩
      intro img2 hcam2 _ _
      cases hcam2
      rfl
    | none =>
      rw [handlePinSubmit_locked_wrong_none s now cam hL hw hen hthr hcam]
      refine ⟨⟨fun _ => ⟨hen, hthr⟩, fun _ => by simp⟩, rfl, ?_⟩
      intro img2 hcam2
      cases hcam2
  · rw [handlePinSubmit_locked_wrong_nofire s now cam hL hw hfire]
    refine ⟨⟨fun h => absurd h (List.not_mem_nil _), fun h => absurd h hfire⟩,
      rfl, ?_⟩
    intro img2 _ hen hthr
    exact absurd ⟨hen, hthr⟩ hfire

/-- C1 witness: concrete qualifying failed attempt where capture is invoked. -/
theorem locked_capture_fires_iff_witness :
    Effect.captureCall ∈ (handlePinSubmit lockedWrongState 7 camReady).effects
    :=
  ((locked_capture_fires_iff lockedWrongState 7 camReady (by decide)
    (by decide)).1).mpr (by decide)

/-- C2: in Locked mode, a pin differing from the stored passcode increments
SessionFailedAttempts by exactly 1 and the verification status passes through
exactly Idle, Checking, BreachDetected, Idle, in that order. -/
theorem locked_wrong_increments_and_status_cycle (s : VaultState) (now : Nat)
    (cam : CameraEnv)
    (hL : s.appState = AppState.LOCKED)
    (hI : s.securityStatus = SecurityStatus.IDLE)
    (hw : ¬ s.storedPin = some s.inputPin) :
    (handlePinSubmit s now cam).final.sessionFailedAttempts =
      s.sessionFailedAttempts + 1 ∧
    s.securityStatus :: (handlePinSubmit s now cam).statusTrace =
      [SecurityStatus.IDLE, SecurityStatus.CHECKING,
        SecurityStatus.BREACH_DETECTED, SecurityStatus.IDLE] := by
  by_cases hfire : s.settings.enableCapture = true ∧
      ((s.sessionFailedAttempts + 1 : Nat) : Int) ≥ s.settings.triggerThreshold
  · obtain ⟨hen, hthr⟩ := hfire
    cases hcam : captureIntruder cam with
    | some img =>
      rw [handlePinSubmit_locked_wrong_some s now cam img hL hw hen hthr hcam]
      exact ⟨rfl, by rw [hI]⟩
    | none =>
      rw [handlePinSubmit_locked_wrong_none s now cam hL hw hen hthr hcam]
      exact ⟨rfl, by rw [hI]⟩
  · rw [handlePinSubmit_locked_wrong_nofire s now cam hL hw hfire]
    exact ⟨rfl, by rw [hI]⟩

/-- C2 witness: concrete wrong-pin submission. -/
theorem locked_wrong_increments_and_status_cycle_witness :
    (handlePinSubmit lockedWrongState 11 camReady).final.sessionFailedAttempts
      = lockedWrongState.sessionFailedAttempts + 1 ∧
    lockedWrongState.securityStatus ::
        (handlePinSubmit lockedWrongState 11 camReady).statusTrace =
      [SecurityStatus.IDLE, SecurityStatus.CHECKING,
        SecurityStatus.BREACH_DETECTED, SecurityStatus.IDLE] :=
  locked_wrong_increments_and_status_cycle lockedWrongState 11 camReady
    (by decide) (by decide) (by decide)

/-- C3: in Locked mode, the correct pin resets SessionFailedAttempts to 0 and
(after the confirmation delay) yields Mode UNLOCKED with the input cleared
and the status back to IDLE, the status having passed through GRANTED. -/
theorem locked_correct_unlocks (s : VaultState) (now : Nat) (cam : CameraEnv)
    (hL : s.appState = AppState.LOCKED)
    (hI : s.securityStatus = SecurityStatus.IDLE)
    (hc : s.storedPin = some s.inputPin) :
    (handlePinSubmit s now cam).final.sessionFailedAttempts = 0 ∧
    (handlePinSubmit s now cam).final.appState = AppState.UNLOCKED ∧
    (handlePinSubmit s now cam).final.inputPin = "" ∧
    (handlePinSubmit s now cam).final.securityStatus = SecurityStatus.IDLE ∧
    s.securityStatus :: (handlePinSubmit s now cam).statusTrace =
      [SecurityStatus.IDLE, SecurityStatus.CHECKING, SecurityStatus.GRANTED,
        SecurityStatus.IDLE] := by
  rw [handlePinSubmit_locked_correct s now cam hL hc]
  exact ⟨rfl, rfl, rfl, rfl, by rw [hI]⟩

/-- C3 witness: concrete correct-pin submission. -/
theorem locked_correct_unlocks_witness :
    (handlePinSubmit lockedRightState 13 camReady).final.sessionFailedAttempts
        = 0 ∧
    (handlePinSubmit lockedRightState 13 camReady).final.appState =
      AppState.UNLOCKED ∧
    (handlePinSubmit lockedRightState 13 camReady).final.inputPin = "" ∧
    (handlePinSubmit lockedRightState 13 camReady).final.securityStatus =
      SecurityStatus.IDLE ∧
    lockedRightState.securityStatus ::
        (handlePinSubmit lockedRightState 13 camReady).statusTrace =
      [SecurityStatus.IDLE, SecurityStatus.CHECKING, SecurityStatus.GRANTED,
        SecurityStatus.IDLE] :=
  locked_correct_unlocks lockedRightState 13 camReady (by decide) (by decide)
    (by decide)

/-- C4: in Setup mode, a 4-digit pin is persisted to the store as entered,
the stored passcode equals it, Mode becomes LOCKED, the input is cleared and
the status returns to IDLE. -/
theorem setup_submit_persists_pin (s : VaultState) (now : Nat)
    (cam : CameraEnv)
    (hS : s.appState = AppState.SETUP)
    (h4 : s.inputPin.length = 4) :
    Effect.persistPin s.inputPin ∈ (handlePinSubmit s now cam).effects ∧
    (handlePinSubmit s now cam).final.storedPin = some s.inputPin ∧
    (handlePinSubmit s now cam).final.appState = AppState.LOCKED ∧
    (handlePinSubmit s now cam).final.inputPin = "" ∧
    (handlePinSubmit s now cam).final.securityStatus = SecurityStatus.IDLE
    := by
  rw [handlePinSubmit_setup_four s now cam hS h4]
  exact ⟨by simp, rfl, rfl, rfl, rfl⟩

/-- C4 witness: concrete setup submission. -/
theorem setup_submit_persists_pin_witness :
    Effect.persistPin setupState.inputPin ∈
      (handlePinSubmit setupState 17 camReady).effects ∧
    (handlePinSubmit setupState 17 camReady).final.storedPin =
      some setupState.inputPin ∧
    (handlePinSubmit setupState 17 camReady).final.appState =
      AppState.LOCKED ∧
    (handlePinSubmit setupState 17 camReady).final.inputPin = "" ∧
    (handlePinSubmit setupState 17 camReady).final.securityStatus =
      SecurityStatus.IDLE :=
  setup_submit_persists_pin setupState 17 camReady (by decide) (by decide)

/-- C5: on a qualifying failed attempt whose capture yields no image, no log
is created (the logs collection is unchanged and nothing is persisted), no
alert is sent, no user-visible message is emitted, and the breach cycle still
completes normally with the input cleared. -/
theorem qualifying_breach_capture_miss_silent (s : VaultState) (now : Nat)
    (cam : CameraEnv)
    (hL : s.appState = AppState.LOCKED)
    (hw : ¬ s.storedPin = some s.inputPin)
    (hen : s.settings.enableCapture = true)
    (hthr : ((s.sessionFailedAttempts + 1 : Nat) : Int) ≥
      s.settings.triggerThreshold)
    (hnone : captureIntruder cam = none) :
    (handlePinSubmit s now cam).final.logs = s.logs ∧
    (handlePinSubmit s now cam).effects = [Effect.captureCall] ∧
    (handlePinSubmit s now cam).statusTrace =
      [SecurityStatus.CHECKING, SecurityStatus.BREACH_DETECTED,
        SecurityStatus.IDLE] ∧
    (handlePinSubmit s now cam).final.inputPin = "" ∧
    (handlePinSubmit s now cam).final.securityStatus = SecurityStatus.IDLE
    := by
  rw [handlePinSubmit_locked_wrong_none s now cam hL hw hen hthr hnone]
  exact ⟨rfl, rfl, rfl, rfl, rfl⟩

/-- C5 witness: concrete qualifying failed attempt with the camera
inactive. -/
theorem qualifying_breach_capture_miss_silent_witness :
    (handlePinSubmit lockedWrongState 19 camDown).final.logs =
      lockedWrongState.logs ∧
    (handlePinSubmit lockedWrongState 19 camDown).effects =
      [Effect.captureCall] ∧
    (handlePinSubmit lockedWrongState 19 camDown).statusTrace =
      [SecurityStatus.CHECKING, SecurityStatus.BREACH_DETECTED,
        SecurityStatus.IDLE] ∧
    (handlePinSubmit lockedWrongState 19 camDown).final.inputPin = "" ∧
    (handlePinSubmit lockedWrongState 19 camDown).final.securityStatus =
      SecurityStatus.IDLE :=
  qualifying_breach_capture_miss_silent lockedWrongState 19 camDown
    (by decide) (by decide) (by decide) (by decide) (by decide)

/-- C6: on every successful capture the new IntruderLog is prepended to the
logs collection, and the effect order is exactly capture, then persistence of
the full updated list, then (when an alert email is configured) the alert
notification — so the notifier always runs after the log entry is durable. -/
theorem capture_prepends_and_persists_before_alert (s : VaultState)
    (now : Nat) (cam : CameraEnv) (img : String)
    (hL : s.appState = AppState.LOCKED)
    (hw : ¬ s.storedPin = some s.inputPin)
    (hen : s.settings.enableCapture = true)
    (hthr : ((s.sessionFailedAttempts + 1 : Nat) : Int) ≥
      s.settings.triggerThreshold)
    (hsome : captureIntruder cam = some img) :
    (handlePinSubmit s now cam).final.logs =
      IntruderLog.mk (toString now) now img (s.sessionFailedAttempts + 1)
        none :: s.logs ∧
    (handlePinSubmit s now cam).effects =
      (if s.settings.alertEmail = "" then
        [Effect.captureCall,
          Effect.persistLogs (IntruderLog.mk (toString now) now img
            (s.sessionFailedAttempts + 1) none :: s.logs)]
      else
        [Effect.captureCall,
          Effect.persistLogs (IntruderLog.mk (toString now) now img
            (s.sessionFailedAttempts + 1) none :: s.logs),
          Effect.sendAlert s.settings.alertEmail
            (s.sessionFailedAttempts + 1)]) := by
  rw [handlePinSubmit_locked_wrong_some s now cam img hL hw hen hthr hsome]
  refine ⟨rfl, ?_⟩
  by_cases he : s.settings.alertEmail = ""
  · simp [sendSecurityAlert, he]
  · simp [sendSecurityAlert, he]

/-- C6 witness: concrete successful capture with an alert email configured. -/
theorem capture_prepends_and_persists_before_alert_witness :
    (handlePinSubmit lockedWrongState 23 camReady).final.logs =
      IntruderLog.mk (toString 23) 23 "frameA"
        (lockedWrongState.sessionFailedAttempts + 1) none
        :: lockedWrongState.logs ∧
    (handlePinSubmit lockedWrongState 23 camReady).effects =
      (if lockedWrongState.settings.alertEmail = "" then
        [Effect.captureCall,
          Effect.persistLogs (IntruderLog.mk (toString 23) 23 "frameA"
            (lockedWrongState.sessionFailedAttempts + 1) none
            :: lockedWrongState.logs)]
      else
        [Effect.captureCall,
          Effect.persistLogs (IntruderLog.mk (toString 23) 23 "frameA"
            (lockedWrongState.sessionFailedAttempts + 1) none
            :: lockedWrongState.logs),
          Effect.sendAlert lockedWrongState.settings.alertEmail
            (lockedWrongState.sessionFailedAttempts + 1)]) :=
  capture_prepends_and_persists_before_alert lockedWrongState 23 camReady
    "frameA" (by decide) (by decide) (by decide) (by decide) (by decide)

/-- C7 counterexample: when the underlying service call fails, the result is
not the string the claim names. -/
theorem analysis_fallback_string_counterexample :
    analyzeIntruderImage "imgA" (Except.error "network down") ≠
      "analysis unavailable" := by
  decide

/-- C7 (amended): the analysis operation is a total function into String —
it never propagates an error to its caller — and an internal failure of the
service call yields the fixed fallback string
"Security analysis currently unavailable.". -/
theorem analysis_failure_maps_to_fallback :
    ∀ (img e : String),
      analyzeIntruderImage img (Except.error e) =
        "Security analysis currently unavailable." := by
  intro img e
  rfl

/-- C8: startup is total, and missing or malformed persisted settings or
logs fall back to the documented defaults and the empty list; a persisted
passcode yields LOCKED mode, its absence SETUP mode. -/
theorem startup_defaults_on_missing_or_malformed :
    DEFAULT_SETTINGS =
      { alertEmail := "", triggerThreshold := 1, enableCapture := true } ∧
    (∀ sp sl e, (initApp sp sl (some (Except.error e))).settings =
      DEFAULT_SETTINGS) ∧
    (∀ sp sl, (initApp sp sl none).settings = DEFAULT_SETTINGS) ∧
    (∀ sp ss e, (initApp sp (some (Except.error e)) ss).logs = []) ∧
    (∀ sp ss, (initApp sp none ss).logs = []) ∧
    (∀ p sl ss, (initApp (some p) sl ss).appState = AppState.LOCKED ∧
      (initApp (some p) sl ss).storedPin = some p) ∧
    (∀ sl ss, (initApp none sl ss).appState = AppState.SETUP) := by
  refine ⟨rfl, ?_, ?_, ?_, ?_, ?_, ?_⟩ <;> intros <;>
    first
    | exact ⟨rfl, rfl⟩
    | rfl

/-- C9 counterexample: a well-formed stored settings object whose
triggerThreshold is 7 is loaded verbatim at initialization, so the value is
not kept inside the range 1..5. -/
theorem threshold_range_counterexample :
    ¬ (1 ≤ (initApp none none (some (Except.ok
          { alertEmail := "", triggerThreshold := 7, enableCapture := true }
        ))).settings.triggerThreshold ∧
       (initApp none none (some (Except.ok
          { alertEmail := "", triggerThreshold := 7, enableCapture := true }
        ))).settings.triggerThreshold ≤ 5) := by
  decide

/-- C9 (amended): the default triggerThreshold is 1, in the range 1..5, and
the settings-mutation operations keep it there — the slider only supplies
values in 1..5 and the other two mutations do not touch the field;
initialization, by contrast, loads a stored settings object without
validating the range. -/
theorem threshold_default_and_mutations_in_range :
    (1 ≤ DEFAULT_SETTINGS.triggerThreshold ∧
      DEFAULT_SETTINGS.triggerThreshold ≤ 5) ∧
    (∀ (st : AppSettings) (v : Int), 1 ≤ v → v ≤ 5 →
      1 ≤ (setTriggerThreshold st v).triggerThreshold ∧
      (setTriggerThreshold st v).triggerThreshold ≤ 5) ∧
    (∀ (st : AppSettings) (e : String),
      1 ≤ st.triggerThreshold → st.triggerThreshold ≤ 5 →
      1 ≤ (setAlertEmail st e).triggerThreshold ∧
      (setAlertEmail st e).triggerThreshold ≤ 5) ∧
    (∀ st : AppSettings,
      1 ≤ st.triggerThreshold → st.triggerThreshold ≤ 5 →
      1 ≤ (toggleEnableCapture st).triggerThreshold ∧
      (toggleEnableCapture st).triggerThreshold ≤ 5) := by
  refine ⟨by decide, ?_, ?_, ?_⟩
  · intro st v h1 h5
    exact ⟨h1, h5⟩
  · intro st e h1 h5
    exact ⟨h1, h5⟩
  · intro st h1 h5
    exact ⟨h1, h5⟩

/-- C9 witness: a concrete slider change keeps the threshold in range. -/
theorem threshold_default_and_mutations_in_range_witness :
    1 ≤ (setTriggerThreshold DEFAULT_SETTINGS 3).triggerThreshold ∧
    (setTriggerThreshold DEFAULT_SETTINGS 3).triggerThreshold ≤ 5 :=
  threshold_default_and_mutations_in_range.2.1 DEFAULT_SETTINGS 3
    (by decide) (by decide)

/-- Branch lemma: SETUP with fewer than 4 characters entered. -/
theorem handlePinSubmit_setup_short (s : VaultState) (now : Nat)
    (cam : CameraEnv)
    (hS : s.appState = AppState.SETUP)
    (h4 : ¬ s.inputPin.length = 4) :
    handlePinSubmit s now cam =
      { final := { s with securityStatus := SecurityStatus.IDLE }
        statusTrace := [SecurityStatus.CHECKING, SecurityStatus.IDLE]
        effects := [] } := by
  unfold handlePinSubmit
  rw [hS]
  simp only [if_neg h4]

/-- Branch lemma: UNLOCKED (no keypad; neither branch of the submit handler
applies, so the cycle ends still CHECKING). -/
theorem handlePinSubmit_unlocked (s : VaultState) (now : Nat)
    (cam : CameraEnv)
    (hU : s.appState = AppState.UNLOCKED) :
    handlePinSubmit s now cam =
      { final := { s with securityStatus := SecurityStatus.CHECKING }
        statusTrace := [SecurityStatus.CHECKING]
        effects := [] } := by
  unfold handlePinSubmit
  rw [hU]

/-- A full submit cycle preserves the stored-pin invariant. -/
theorem handlePinSubmit_preserves_pinInvariant (s : VaultState) (now : Nat)
    (cam : CameraEnv) (h : pinInvariant s) :
    pinInvariant (handlePinSubmit s now cam).final := by
  cases hA : s.appState with
  | SETUP =>
    by_cases h4 : s.inputPin.length = 4
    · rw [handlePinSubmit_setup_four s now cam hA h4]
      intro _
      simp
    · rw [handlePinSubmit_setup_short s now cam hA h4]
      exact fun hm => h hm
  | LOCKED =>
    by_cases hc : s.storedPin = some s.inputPin
    · rw [handlePinSubmit_locked_correct s now cam hA hc]
      intro _
      rw [show ({ s with
          sessionFailedAttempts := 0
          appState := AppState.UNLOCKED
          inputPin := ""
          securityStatus := SecurityStatus.IDLE } : VaultState).storedPin =
        s.storedPin from rfl, hc]
      simp
    · by_cases hfire : s.settings.enableCapture = true ∧
        ((s.sessionFailedAttempts + 1 : Nat) : Int) ≥
          s.settings.triggerThreshold
      · obtain ⟨hen, hthr⟩ := hfire
        cases hcam : captureIntruder cam with
        | some img =>
          rw [handlePinSubmit_locked_wrong_some s now cam img hA hc hen hthr
            hcam]
          exact fun hm => h hm
        | none =>
          rw [handlePinSubmit_locked_wrong_none s now cam hA hc hen hthr
            hcam]
          exact fun hm => h hm
      · rw [handlePinSubmit_locked_wrong_nofire s now cam hA hc hfire]
        exact fun hm => h hm
  | UNLOCKED =>
    rw [handlePinSubmit_unlocked s now cam hA]
    exact fun hm => h hm

/-- The initialization effect establishes the stored-pin invariant. -/
theorem initApp_pinInvariant (savedPin : Option String)
    (savedLogs : Option (Except String (List IntruderLog)))
    (savedSettings : Option (Except String AppSettings)) :
    pinInvariant (initApp savedPin savedLogs savedSettings) := by
  cases savedPin with
  | none =>
    intro hm
    rcases hm with hm | hm <;> cases hm
  | some p =>
    intro _
    simp [initApp]

/-- C10: every reachable state in LOCKED or UNLOCKED mode has a stored
passcode (storedPin is not null): initialization with a persisted passcode,
the Setup submit path, the unlock path and the re-lock action each either
set the stored passcode first or start from a state where it is already
set. -/
theorem locked_or_unlocked_has_stored_pin (s : VaultState)
    (h : Reachable s) : pinInvariant s := by
  obtain ⟨sp, sl, ss, hrt⟩ := h
  induction hrt with
  | refl => exact initApp_pinInvariant sp sl ss
  | tail hab hstep ih =>
    cases hstep with
    | keyPress key hg =>
      unfold handleKeyPress
      split
      · exact fun hm => ih hm
      · exact ih
    | deleteKey hg => exact fun hm => ih hm
    | pinSubmit now cam h4 =>
      exact handlePinSubmit_preserves_pinInvariant _ now cam ih
    | reLock hg => exact fun _ => ih (Or.inr hg)
    | thresholdChange v hg h1 h5 => exact fun hm => ih hm
    | emailChange e hg => exact fun hm => ih hm
    | captureToggle hg => exact fun hm => ih hm
    | analyzeDone logId analysis hg => exact fun hm => ih hm

/-- C10 witness: a concrete reachable LOCKED state has a stored pin. -/
theorem locked_or_unlocked_has_stored_pin_witness :
    (initApp (some "1234") none none).storedPin ≠ none :=
  locked_or_unlocked_has_stored_pin (initApp (some "1234") none none)
    ⟨some "1234", none, none, Relation.ReflTransGen.refl⟩ (Or.inl rfl)

end Theorems

end VaultGuard
